import Mathlib

set_option maxHeartbeats 1000000
set_option maxRecDepth 4000

/-!
Verification development for the video-detection client
(`client/utils/api_client.py`, `client/utils/gemini_client.py`,
`client/core/pipeline.py`, `client/app.py`).

The Python code is shallowly embedded: strings are `String`/`List Char`,
Python floats are modelled as exact scaled decimals (`DecNum`; all
constants involved — 0.0, 0.5, 1.0, 1.5 — are decimal, so this is exact),
`queue.Queue` is a list together with its `maxsize`, wall-clock times are
`ℚ`, and exception flow is explicit via `Except`.
-/

namespace VideoMonitor

/-! ### Python string helpers

Models of the `str` methods used by `_parse_response`:
`strip`, `startswith`, `endswith`, `lower`, `find`, `rfind`, slicing,
and the `in` substring test. -/

/-- Characters removed by Python `str.strip()` (the ASCII whitespace set). -/
def pyWs (c : Char) : Bool :=
  c == ' ' || c == '\t' || c == '\n' || c == '\r' || c == '\x0b' || c == '\x0c'

/-- Python `s.strip()`. -/
def pyStrip (s : List Char) : List Char :=
  ((s.dropWhile pyWs).reverse.dropWhile pyWs).reverse

/-- Python `s.startswith(p)` — `startsWithL p s`. -/
def startsWithL : List Char → List Char → Bool
  | [], _ => true
  | _ :: _, [] => false
  | p :: ps, c :: cs => p == c && startsWithL ps cs

/-- Python `s.endswith(p)` — `endsWithL p s`. -/
def endsWithL (p s : List Char) : Bool :=
  startsWithL p.reverse s.reverse

/-- Python `needle in hay` on strings. -/
def containsSub (needle : List Char) : List Char → Bool
  | [] => startsWithL needle []
  | c :: t => startsWithL needle (c :: t) || containsSub needle t

/-- Python `s.lower()` (ASCII case mapping; the CJK keywords are unaffected
by lowercasing in Python as well). -/
def pyLower (s : List Char) : List Char := s.map Char.toLower

/-- Python slice `s[i:j]` for `0 ≤ i, j` (empty when `i ≥ j`). -/
def pySlice (s : List Char) (i j : Nat) : List Char := (s.drop i).take (j - i)

/-- Python `s.rfind(c)` returning the index of the last occurrence. -/
def rfindIdx (c : Char) (s : List Char) : Option Nat :=
  match List.findIdx? (fun x => x == c) s.reverse with
  | none => none
  | some k => some (s.length - 1 - k)

/-! ### Exact decimals modelling the Python floats of this code

Every float the client manipulates is a decimal: the literals 0.0, 0.5,
1.0 and the numbers of the JSON responses.  They are modelled exactly as
scaled decimals `m / 10 ^ e`; `toRat` gives the represented value, used
in theorem statements.  (Binary-rounding corners of IEEE doubles are
outside the model.) -/

structure DecNum where
  m : Int
  e : Nat
deriving DecidableEq

/-- The rational value represented by a scaled decimal. -/
def DecNum.toRat (d : DecNum) : ℚ := (d.m : ℚ) / (10 : ℚ) ^ d.e

/-- Strict order by cross multiplication (`blt_iff` below shows it agrees
with `toRat`). -/
def DecNum.blt (a b : DecNum) : Bool :=
  decide (a.m * (10 : ℤ) ^ b.e < b.m * (10 : ℤ) ^ a.e)

def DecNum.zero : DecNum := ⟨0, 0⟩

def DecNum.one : DecNum := ⟨1, 0⟩

def DecNum.half : DecNum := ⟨5, 1⟩

/-- Python `min(a, b)`: `b` when `b < a`, else `a`. -/
def DecNum.pyMin (a b : DecNum) : DecNum := if DecNum.blt b a then b else a

/-- Python `max(a, b)`: `b` when `a < b`, else `a`. -/
def DecNum.pyMax (a b : DecNum) : DecNum := if DecNum.blt a b then b else a

/-- Negation of a scaled decimal. -/
def DecNum.neg (d : DecNum) : DecNum := ⟨-d.m, d.e⟩

/-! ### JSON values and a model of `json.loads`

`json.loads` is the standard-library JSON parser; the model below follows
the JSON grammar (strict mode): values are null / booleans / numbers /
strings / arrays / objects, numbers are `-? int frac? exp?` with the
leading-zero restriction, strings support the standard escapes.  Numbers
are carried as exact decimals (the int/float distinction is dropped; no
claim touches it).  Parsing requires the whole input to be consumed, as `json.loads`
does.  `NaN`/`Infinity` literals are outside the model. -/

inductive Json where
  | jnull
  | jbool (b : Bool)
  | jnum (q : DecNum)
  | jstr (s : List Char)
  | jarr (elems : List Json)
  | jobj (kvs : List (List Char × Json))

/-- JSON structural whitespace. -/
def skipWs : List Char → List Char
  | [] => []
  | c :: r => if c == ' ' || c == '\t' || c == '\n' || c == '\r' then skipWs r else c :: r

def isDigitCh (c : Char) : Bool := '0' ≤ c && c ≤ '9'

def digitVal (c : Char) : Nat := c.toNat - '0'.toNat

def digitsToNat (ds : List Char) : Nat := ds.foldl (fun a c => a * 10 + digitVal c) 0

def takeDigits (s : List Char) : List Char × List Char :=
  (s.takeWhile isDigitCh, s.dropWhile isDigitCh)

/-- JSON integer-part digits: nonempty, no leading zero unless exactly "0". -/
def validIntDigits : List Char → Bool
  | [] => false
  | ['0'] => true
  | '0' :: _ :: _ => false
  | _ => true

/-- Fraction part: after a '.', at least one digit is required. -/
def parseFrac : List Char → Option (List Char × List Char)
  | '.' :: r =>
      let p := takeDigits r
      if p.1.isEmpty then none else some (p.1, p.2)
  | s => some ([], s)

/-- Exponent part: optional `e`/`E` with optional sign and mandatory digits. -/
def parseExp : List Char → Option (Int × List Char)
  | [] => some (0, [])
  | c :: r =>
    if c == 'e' || c == 'E' then
      let sr : Int × List Char :=
        match r with
        | '+' :: rr => (1, rr)
        | '-' :: rr => (-1, rr)
        | _ => (1, r)
      let p := takeDigits sr.2
      if p.1.isEmpty then none else some (sr.1 * (digitsToNat p.1 : Int), p.2)
    else some (0, c :: r)

/-- Combine digit groups, sign and exponent into the exact decimal value
`sign * digits(ip ++ fp) * 10 ^ (e - fp.length)`. -/
def decOfParts (neg : Bool) (ip fp : List Char) (e : Int) : DecNum :=
  let mant : Int := (digitsToNat (ip ++ fp) : Int)
  let v : DecNum :=
    if 0 ≤ e then ⟨mant * (10 : ℤ) ^ e.toNat, fp.length⟩
    else ⟨mant, fp.length + (-e).toNat⟩
  if neg then v.neg else v

/-- JSON number parser, yielding the exact decimal value. -/
def parseNumber (s : List Char) : Option (Json × List Char) :=
  let sp : Bool × List Char :=
    match s with
    | '-' :: r => (true, r)
    | _ => (false, s)
  let ip := takeDigits sp.2
  if validIntDigits ip.1 then
    match parseFrac ip.2 with
    | none => none
    | some (fp, s3) =>
      match parseExp s3 with
      | none => none
      | some (e, s4) => some (.jnum (decOfParts sp.1 ip.1 fp e), s4)
  else none

def hexVal (c : Char) : Option Nat :=
  if isDigitCh c then some (digitVal c)
  else if 97 ≤ c.toNat && c.toNat ≤ 102 then some (c.toNat - 97 + 10)
  else if 65 ≤ c.toNat && c.toNat ≤ 70 then some (c.toNat - 65 + 10)
  else none

/-- Characters of a JSON string after the opening quote, up to and including
the closing quote, decoding escapes. -/
def parseStrChars : Nat → List Char → Option (List Char × List Char)
  | 0, _ => none
  | _, [] => none
  | fuel + 1, c :: r =>
    if c == '"' then some ([], r)
    else if c == '\\' then
      match r with
      | [] => none
      | e :: r' =>
        if e == '"' then (parseStrChars fuel r').map (fun p => ('"' :: p.1, p.2))
        else if e == '\\' then (parseStrChars fuel r').map (fun p => ('\\' :: p.1, p.2))
        else if e == '/' then (parseStrChars fuel r').map (fun p => ('/' :: p.1, p.2))
        else if e == 'b' then (parseStrChars fuel r').map (fun p => ('\x08' :: p.1, p.2))
        else if e == 'f' then (parseStrChars fuel r').map (fun p => ('\x0c' :: p.1, p.2))
        else if e == 'n' then (parseStrChars fuel r').map (fun p => ('\n' :: p.1, p.2))
        else if e == 'r' then (parseStrChars fuel r').map (fun p => ('\r' :: p.1, p.2))
        else if e == 't' then (parseStrChars fuel r').map (fun p => ('\t' :: p.1, p.2))
        else if e == 'u' then
          match r' with
          | h1 :: h2 :: h3 :: h4 :: r'' =>
            match hexVal h1, hexVal h2, hexVal h3, hexVal h4 with
            | some a, some b, some c2, some d =>
              (parseStrChars fuel r'').map
                (fun p => (Char.ofNat (((a * 16 + b) * 16 + c2) * 16 + d) :: p.1, p.2))
            | _, _, _, _ => none
          | _ => none
        else none
    else (parseStrChars fuel r).map (fun p => (c :: p.1, p.2))

mutual

/-- One JSON value (fuel-indexed recursion; fuel bounds nesting). -/
def parseValue : Nat → List Char → Option (Json × List Char)
  | 0, _ => none
  | fuel + 1, s =>
    match skipWs s with
    | 'n' :: 'u' :: 'l' :: 'l' :: r => some (.jnull, r)
    | 't' :: 'r' :: 'u' :: 'e' :: r => some (.jbool true, r)
    | 'f' :: 'a' :: 'l' :: 's' :: 'e' :: r => some (.jbool false, r)
    | '"' :: r => (parseStrChars (r.length + 1) r).map (fun p => (.jstr p.1, p.2))
    | '[' :: r =>
      (match skipWs r with
       | ']' :: r' => some (.jarr [], r')
       | r' => (parseItems fuel r').map (fun p => (.jarr p.1, p.2)))
    | '{' :: r =>
      (match skipWs r with
       | '}' :: r' => some (.jobj [], r')
       | r' => (parseMembers fuel r').map (fun p => (.jobj p.1, p.2)))
    | s' => parseNumber s'

/-- Comma-separated array items up to the closing bracket. -/
def parseItems : Nat → List Char → Option (List Json × List Char)
  | 0, _ => none
  | fuel + 1, s =>
    match parseValue fuel s with
    | none => none
    | some (v, r) =>
      match skipWs r with
      | ',' :: r' => (parseItems fuel r').map (fun p => (v :: p.1, p.2))
      | ']' :: r' => some ([v], r')
      | _ => none

/-- Comma-separated object members up to the closing brace. -/
def parseMembers : Nat → List Char → Option (List (List Char × Json) × List Char)
  | 0, _ => none
  | fuel + 1, s =>
    match skipWs s with
    | '"' :: r =>
      (match parseStrChars (r.length + 1) r with
       | none => none
       | some (k, r1) =>
         match skipWs r1 with
         | ':' :: r2 =>
           (match parseValue fuel r2 with
            | none => none
            | some (v, r3) =>
              match skipWs r3 with
              | ',' :: r4 => (parseMembers fuel r4).map (fun p => ((k, v) :: p.1, p.2))
              | '}' :: r4 => some ([(k, v)], r4)
              | _ => none)
         | _ => none)
    | _ => none

end

/-- Model of `json.loads`: parse one value and require the rest of the input
to be whitespace; `none` models `json.JSONDecodeError`. -/
def json_loads (s : List Char) : Option Json :=
  match parseValue (2 * s.length + 2) s with
  | none => none
  | some (v, r) => if (skipWs r).isEmpty then some v else none

/-! ### Python conversions used on extracted JSON fields -/

/-- Python truthiness, as applied by `bool(...)` to a decoded JSON value. -/
def pyTruthy : Json → Bool
  | .jnull => false
  | .jbool b => b
  | .jnum q => decide (q.m ≠ 0)
  | .jstr s => !s.isEmpty
  | .jarr xs => !xs.isEmpty
  | .jobj kvs => !kvs.isEmpty

/-- Rendering of a decoded JSON number by Python `str(...)`.  Integral
values render as their digits; no claim depends on the non-integral case,
rendered here in mantissa/scale form. -/
def pyNumRepr (q : DecNum) : List Char :=
  if q.e = 0 then (toString q.m).data
  else (toString q.m ++ "e-" ++ toString q.e).data

/-- Python `str(...)` on a decoded JSON value.  Strings pass through
unchanged; `True`/`False`/`None` follow Python's spelling.  No claim
depends on the container cases. -/
def pyStr : Json → List Char
  | .jnull => "None".data
  | .jbool true => "True".data
  | .jbool false => "False".data
  | .jnum q => pyNumRepr q
  | .jstr s => s
  | .jarr _ => "[...]".data
  | .jobj _ => "\x7b...\x7d".data

/-- Python `float(str)`: strip, optional sign, digits with optional point
and exponent (`"1."` and `".5"` are accepted, unlike JSON). -/
def pyFloatOfStr (s : List Char) : Option DecNum :=
  let t := pyStrip s
  let sp : Bool × List Char :=
    match t with
    | '-' :: r => (true, r)
    | '+' :: r => (false, r)
    | _ => (false, t)
  let ip := takeDigits sp.2
  let fr : List Char × List Char :=
    match ip.2 with
    | '.' :: r => takeDigits r
    | _ => ([], ip.2)
  if (ip.1 ++ fr.1).isEmpty then none
  else
    match parseExp fr.2 with
    | none => none
    | some (e, t4) =>
      if t4.isEmpty then some (decOfParts sp.1 ip.1 fr.1 e)
      else none

/-- Python `float(...)` on a decoded JSON value.  `Except.error`
models the raised `TypeError`/`ValueError` (both are `Exception`
subclasses and neither is a `json.JSONDecodeError`). -/
def pyFloat : Json → Except Unit DecNum
  | .jnum q => .ok q
  | .jbool b => .ok (if b then DecNum.one else DecNum.zero)
  | .jstr s =>
    match pyFloatOfStr s with
    | some q => .ok q
    | none => .error ()
  | .jnull => .error ()
  | .jarr _ => .error ()
  | .jobj _ => .error ()

/-- Python `dict` lookup on the decoded object: the last binding of a
repeated key wins, exactly as in `dict` construction by `json.loads`. -/
def objGet (kvs : List (List Char × Json)) (k : List Char) : Option Json :=
  match kvs.reverse.find? (fun kv => kv.1 == k) with
  | none => none
  | some kv => some kv.2

/-- Python `json_data.get(k, d)`. -/
def objGetD (kvs : List (List Char × Json)) (k : List Char) (d : Json) : Json :=
  (objGet kvs k).getD d

/-! ### `_parse_response` (shared verbatim by `NetworkWorker` and
`GeminiWorker`) -/

/-- The result dictionary built by `_parse_response`
(and, for the error-result case, by `GeminiWorker._worker_loop`). -/
structure ParseResult where
  raw_response : String
  is_danger : Bool
  alert_type : String
  alert_message : String
  reasoning : String
  confidence : DecNum
deriving DecidableEq

/-- The initial `result` dictionary of `_parse_response`
(`confidence` starts at the literal `0.5`). -/
def initResult (raw : String) : ParseResult :=
  { raw_response := raw, is_danger := false, alert_type := "", alert_message := "",
    reasoning := "", confidence := DecNum.half }

/-- The danger keyword list of the fallback branch. -/
def dangerKeywords : List (List Char) :=
  ["danger".data, "危险".data, "异常".data, "受伤".data]

/-- `any(keyword in response_text.lower() for keyword in [...])`. -/
def kwScan (raw : String) : Bool :=
  dangerKeywords.any (fun k => containsSub k (pyLower raw.data))

/-- The cleaning prefix of `_parse_response`: strip, remove a leading
markdown fence and a trailing fence, strip again. -/
def cleanResponse (raw : List Char) : List Char :=
  let c0 := pyStrip raw
  let c1 :=
    if startsWithL "```json".data c0 then c0.drop 7
    else if startsWithL "```".data c0 then c0.drop 3
    else c0
  let c2 := if endsWithL "```".data c1 then c1.take (c1.length - 3) else c1
  pyStrip c2

/-- Field extraction from the decoded object, in source statement order;
`Except.error` carries the partially updated dictionary at the point
where `float(...)` raised. -/
def extractObj (r0 : ParseResult) (kvs : List (List Char × Json)) :
    Except ParseResult ParseResult :=
  let r1 := { r0 with is_danger := pyTruthy (objGetD kvs "is_danger".data (.jbool false)) }
  let r2 := { r1 with alert_type := String.mk (pyStr (objGetD kvs "alert_type".data (.jstr []))) }
  let r3 := { r2 with alert_message := String.mk (pyStr (objGetD kvs "alert_message".data (.jstr []))) }
  let r4 := { r3 with reasoning := String.mk (pyStr (objGetD kvs "reasoning".data (.jstr []))) }
  match pyFloat (objGetD kvs "confidence".data (.jnum DecNum.half)) with
  | .error _ => .error r4
  | .ok c => .ok { r4 with confidence := DecNum.pyMax DecNum.zero (DecNum.pyMin DecNum.one c) }

/-- Continuation of the `try` block on the outcome of `json.loads`:
a decoded dict goes to field extraction; a decode failure is the raised
`JSONDecodeError`; a decoded non-dict raises on the `.get` call. -/
def parseBodyInner (r0 : ParseResult) (v : Option Json) : Except ParseResult ParseResult :=
  match v with
  | some (.jobj kvs) => extractObj r0 kvs
  | some _ => .error r0
  | none => .error r0

/-- The `try` block of `_parse_response`.  `Except.error` carries the
dictionary state at the point an exception was raised (`json.loads`
failing, `.get` on a non-dict, or `float(...)` failing); the surrounding
handlers turn it into a returned result. -/
def parseBody (raw : String) (r0 : ParseResult) : Except ParseResult ParseResult :=
  match List.findIdx? (fun c => c == '{') (cleanResponse raw.data),
        rfindIdx '}' (cleanResponse raw.data) with
  | some i, some j => parseBodyInner r0 (json_loads (pySlice (cleanResponse raw.data) i (j + 1)))
  | _, _ =>
    .ok { r0 with reasoning := raw,
                  is_danger := if kwScan raw then true else r0.is_danger }

/-- `_parse_response`: the `try` block with its `except` handlers, which
both set `reasoning` to the raw text and return the dictionary. -/
def parse_response (raw : String) : ParseResult :=
  match parseBody raw (initResult raw) with
  | .ok r => r
  | .error r => { r with reasoning := raw }

/-- The dictionary carried by either outcome of the `try` block (the
handlers change only `reasoning`, never `confidence`). -/
def exVal : Except ParseResult ParseResult → ParseResult
  | .ok r => r
  | .error r => r

/-! ### The dispatcher worker loops (`NetworkWorker._worker_loop`,
`GeminiWorker._worker_loop`)

A dequeued task leads to one synchronous remote call whose outcome is
either a response text or a transport failure
(`requests.exceptions.RequestException` for `NetworkWorker`, any
exception of the API call for `GeminiWorker`).  The model maps each
outcome to the list of results the iteration delivers (result queue and
callback receive the same results). -/

inductive CallOutcome where
  | success (responseText : String)
  | transportFailure (errMsg : String)

/-- One `NetworkWorker._worker_loop` task: on success the parsed result is
delivered; on `RequestException` the handler only logs — no result is
produced. -/
def networkWorkerProcess : CallOutcome → List ParseResult
  | .success t => [parse_response t]
  | .transportFailure _ => []

/-- The error result `GeminiWorker._worker_loop` builds on a failed API
call (the dict literally lacks the `alert_type`/`alert_message` keys;
downstream reads them only through `.get` with default `""`, which the
empty-string fields model). -/
def geminiErrorResult (e : String) : ParseResult :=
  { raw_response := "API 调用失败: " ++ e, is_danger := false, alert_type := "",
    alert_message := "", reasoning := "API 调用出错: " ++ e, confidence := DecNum.zero }

/-- One `GeminiWorker._worker_loop` task: on success the parsed result is
delivered; on failure the synthesized error result is delivered. -/
def geminiWorkerProcess : CallOutcome → List ParseResult
  | .success t => [parse_response t]
  | .transportFailure e => [geminiErrorResult e]

/-- A worker loop run over a sequence of task outcomes: every failure is
caught inside the loop body, so processing always continues with the next
task and the delivered results concatenate. -/
def workerRun (proc : CallOutcome → List ParseResult) : List CallOutcome → List ParseResult
  | [] => []
  | o :: rest => proc o ++ workerRun proc rest

/-! ### `queue.Queue` and `submit_task`

`queue.Queue(maxsize)` blocks nothing when used through `put_nowait` /
`get_nowait`: `put_nowait` raises `queue.Full` exactly when
`0 < maxsize ≤ qsize()`.  `submit_task` catches `queue.Full` and drops
the task with a warning.  `NetworkWorker.__init__` and
`GeminiWorker.__init__` construct the task queue as `queue.Queue()`,
i.e. with `maxsize = 0`. -/

structure PyQueue (α : Type) where
  maxsize : Nat
  items : List α

/-- `qsize() >= maxsize > 0`: the condition under which `put_nowait`
raises `queue.Full`. -/
def PyQueue.isFull (q : PyQueue α) : Bool :=
  0 < q.maxsize && q.maxsize ≤ q.items.length

/-- `submit_task`: `put_nowait` the copied task; on `queue.Full` drop it,
a warning being the only effect.  The returned flag records whether the
task was dropped. -/
def submit_task (q : PyQueue α) (t : α) : PyQueue α × Bool :=
  if q.isFull then (q, true)
  else ({ q with items := q.items ++ [t] }, false)

/-- A burst of submissions in quick succession (no worker dequeue in
between). -/
def submitMany (q : PyQueue α) : List α → PyQueue α
  | [] => q
  | t :: ts => submitMany (submit_task q t).1 ts

/-- The task queue as constructed by `NetworkWorker.__init__`
(`queue.Queue()` — `maxsize = 0`, conceptually unbounded). -/
def networkTaskQueueInit : PyQueue Nat := { maxsize := 0, items := [] }

/-! ### The capture queue (`VideoPipeline`)

`VideoPipeline.__init__` creates `queue.Queue(maxsize=2)`.  The producer
step of `_capture_loop` evicts the oldest frame when the queue is full
and then `put_nowait`s a copy of the new frame (skipping it if the queue
is somehow still full); `read_frame` pops the oldest frame without
blocking.  The model is the sequential interleaving semantics of these
two operations. -/

/-- The `_capture_loop` publish step: `full()` → `get_nowait()` discards
the oldest, then `put_nowait(frame.copy())`, with `queue.Full` skipping
the frame. -/
def capturePush (q : List α) (f : α) : List α :=
  let q1 := if 2 ≤ q.length then q.drop 1 else q
  if q1.length < 2 then q1 ++ [f] else q1

/-- `read_frame`: non-blocking `get_nowait` — the oldest frame, if any. -/
def read_frame (q : List α) : Option α × List α :=
  match q with
  | [] => (none, [])
  | f :: r => (some f, r)

/-- A producer push or a consumer read, interleaved arbitrarily. -/
inductive CapOp (α : Type) where
  | push (f : α)
  | read

/-- Effect of one interleaved operation on the capture queue. -/
def capStep (q : List α) : CapOp α → List α
  | .push f => capturePush q f
  | .read => (read_frame q).2

/-- The capture queue after a sequence of interleaved operations,
starting empty. -/
def capRun (ops : List (CapOp α)) : List α :=
  ops.foldl capStep []

/-- Draining the queue: repeated `read_frame` until empty, collecting the
frames in the order the consumer observes them. -/
def drainQueue : List α → List α
  | [] => []
  | f :: r => f :: drainQueue r

/-! ### Upload gating (`SmartMonitor.run`, step 4)

Per iteration the loop recomputes `current_time`, compares
`current_time - last_upload_time` with `cooldown_seconds`, and if a
person is present and the cooldown has elapsed it submits the frame and
sets `last_upload_time = current_time` in the same iteration (before any
response arrives). -/

/-- One iteration of the upload-gating logic: returns whether a task was
submitted and the new `last_upload_time`. -/
def uploadStep (cooldown lastUpload t : ℚ) (hasPerson : Bool) :
    Bool × ℚ :=
  if hasPerson && decide (cooldown ≤ t - lastUpload) then (true, t)
  else (false, lastUpload)

/-- Number of tasks submitted over a sequence of iterations, each given
by its wall-clock time and person flag. -/
def uploadRun (cooldown : ℚ) : ℚ → List (ℚ × Bool) → Nat
  | _, [] => 0
  | lastUpload, (t, p) :: rest =>
    let s := uploadStep cooldown lastUpload t p
    (if s.1 then 1 else 0) + uploadRun cooldown s.2 rest

/-! ### Alert triggering (`SmartMonitor._trigger_alert`,
`SmartMonitor._save_alert_image`, and the danger branch of
`SmartMonitor.run`) -/

/-- Cooldown state mutated by `_trigger_alert`. -/
structure AlertState where
  lastAlertTime : ℚ
  alertCount : Nat
deriving DecidableEq

/-- The `alert_data` dictionary handed to `AlertNotifier.send_alert`.
`time.strftime` is abstracted by carrying the alert time itself. -/
structure AlertRecord where
  rule_name : String
  description : String
  severity : String
  location : String
  alertTime : ℚ
deriving DecidableEq

/-- An evidence-image write by `_save_alert_image`; the flag is its
`is_cooldown` argument, which puts the `"_cooldown"` tag into the file
name. -/
structure SaveEvent where
  isCooldown : Bool
deriving DecidableEq

/-- File-name tag produced by `_save_alert_image` for a save event. -/
def cooldownTag (ev : SaveEvent) : String :=
  if ev.isCooldown then "_cooldown" else ""

/-- `_trigger_alert(result, frame)` at wall-clock time `t`: inside the
alert cooldown it only persists a cooldown-tagged evidence image;
otherwise it updates `last_alert_time`, increments the alert counter,
sends the `AlertRecord`, and persists an untagged evidence image.  The
image is written only when `save_alert_images` is set and a frame was
passed. -/
def trigger_alert (alertCooldown : ℚ) (saveImages framePresent : Bool)
    (st : AlertState) (t : ℚ) (reasoning : String) :
    AlertState × Option AlertRecord × List SaveEvent :=
  if t - st.lastAlertTime < alertCooldown then
    (st, none, if saveImages && framePresent then [⟨true⟩] else [])
  else
    ({ lastAlertTime := t, alertCount := st.alertCount + 1 },
     some { rule_name := "危险动作检测",
            description := "检测到危险情况: " ++ reasoning,
            severity := "高",
            location := "监控摄像头",
            alertTime := t },
     if saveImages && framePresent then [⟨false⟩] else [])

/-- The danger branch of `SmartMonitor.run` (step 5): when a polled
result has `is_danger`, the main loop first persists an untagged
evidence image (when saving is enabled) and then calls `_trigger_alert`
with the current frame (always present at this point), which persists a
second image.  Returns the new state, the delivered record (if any) and
the save events in program order. -/
def dangerResultStep (alertCooldown : ℚ) (saveImages : Bool)
    (st : AlertState) (t : ℚ) (reasoning : String) :
    AlertState × Option AlertRecord × List SaveEvent :=
  let mainSaves : List SaveEvent := if saveImages then [⟨false⟩] else []
  let tr := trigger_alert alertCooldown saveImages true st t reasoning
  (tr.1, tr.2.1, mainSaves ++ tr.2.2)

/-- A sequence of danger results processed at the given times, with image
saving enabled and a frame present, as in `SmartMonitor.run`.  For each
time it records whether a notification was delivered and the save events
of the `_trigger_alert` call. -/
def alertRun (alertCooldown : ℚ) (st : AlertState) :
    List ℚ → List (Bool × List SaveEvent)
  | [] => []
  | t :: rest =>
    let tr := trigger_alert alertCooldown true true st t "r"
    (tr.2.1.isSome, tr.2.2) :: alertRun alertCooldown tr.1 rest

end VideoMonitor


namespace VideoMonitor

/-! ## Supporting lemmas -/

theorem DecNum.blt_iff (a b : DecNum) :
    (DecNum.blt a b = true) ↔ a.toRat < b.toRat := by
  unfold DecNum.blt DecNum.toRat
  rw [decide_eq_true_iff, div_lt_div_iff₀ (by positivity) (by positivity)]
  constructor <;> intro h <;> exact_mod_cast h

theorem clampD_bounds (c : DecNum) :
    0 ≤ (DecNum.pyMax DecNum.zero (DecNum.pyMin DecNum.one c)).toRat ∧
    (DecNum.pyMax DecNum.zero (DecNum.pyMin DecNum.one c)).toRat ≤ 1 := by
  have hz : DecNum.zero.toRat = 0 := by norm_num [DecNum.toRat, DecNum.zero]
  have ho : DecNum.one.toRat = 1 := by norm_num [DecNum.toRat, DecNum.one]
  unfold DecNum.pyMax DecNum.pyMin
  by_cases h1 : DecNum.blt c DecNum.one
  · have hc : c.toRat < 1 := by rw [← ho]; exact (DecNum.blt_iff _ _).mp h1
    rw [if_pos h1]
    by_cases h2 : DecNum.blt DecNum.zero c
    · have h0 : 0 < c.toRat := by rw [← hz]; exact (DecNum.blt_iff _ _).mp h2
      rw [if_pos h2]
      exact ⟨le_of_lt h0, le_of_lt hc⟩
    · rw [if_neg h2, hz]
      norm_num
  · rw [if_neg h1]
    by_cases h2 : DecNum.blt DecNum.zero DecNum.one
    · rw [if_pos h2, ho]
      norm_num
    · rw [if_neg h2, hz]
      norm_num

theorem exVal_extractObj_conf (r0 : ParseResult) (kvs : List (List Char × Json)) :
    (exVal (extractObj r0 kvs)).confidence = r0.confidence ∨
    ∃ c, (exVal (extractObj r0 kvs)).confidence =
      DecNum.pyMax DecNum.zero (DecNum.pyMin DecNum.one c) := by
  unfold extractObj
  cases h : pyFloat (objGetD kvs "confidence".data (.jnum DecNum.half)) with
  | error e => left; simp [exVal]
  | ok c => right; exact ⟨c, by simp [exVal]⟩

theorem exVal_parseBodyInner_conf (r0 : ParseResult) (v : Option Json) :
    (exVal (parseBodyInner r0 v)).confidence = r0.confidence ∨
    ∃ c, (exVal (parseBodyInner r0 v)).confidence =
      DecNum.pyMax DecNum.zero (DecNum.pyMin DecNum.one c) := by
  match v with
  | none => left; rfl
  | some (.jobj kvs) => exact exVal_extractObj_conf r0 kvs
  | some .jnull => left; rfl
  | some (.jbool b) => left; rfl
  | some (.jnum q) => left; rfl
  | some (.jstr s) => left; rfl
  | some (.jarr xs) => left; rfl

theorem exVal_parseBody_conf (raw : String) (r0 : ParseResult) :
    (exVal (parseBody raw r0)).confidence = r0.confidence ∨
    ∃ c, (exVal (parseBody raw r0)).confidence =
      DecNum.pyMax DecNum.zero (DecNum.pyMin DecNum.one c) := by
  unfold parseBody
  cases hf : List.findIdx? (fun c => c == '{') (cleanResponse raw.data) with
  | none => left; simp [exVal]
  | some i =>
    cases hr : rfindIdx '}' (cleanResponse raw.data) with
    | none => left; simp [exVal]
    | some j => exact exVal_parseBodyInner_conf r0 _

theorem parse_response_conf (raw : String) :
    (parse_response raw).confidence =
      (exVal (parseBody raw (initResult raw))).confidence := by
  unfold parse_response
  cases h : parseBody raw (initResult raw) with
  | ok r => rfl
  | error r => rfl

/-! ## Claim theorems -/

/-- C1 counterexample: on a transport failure
(`requests.exceptions.RequestException`), `NetworkWorker._worker_loop`
only logs — it delivers no `AnalysisResult` at all, so the failing task
does not produce exactly one result; the next task is still processed. -/
theorem c1_counterexample :
    networkWorkerProcess (.transportFailure "Connection refused") = [] ∧
    (workerRun networkWorkerProcess
      [.transportFailure "Connection refused",
       .success "\x7b\"is_danger\": false\x7d"]).length = 1 := by
  exact ⟨rfl, rfl⟩

/-- C1 (amended): on a transport failure, `GeminiWorker` delivers exactly
one synthesized result with `is_danger = false`, `confidence = 0.0` and a
non-empty failure `reasoning`, and continues with subsequent tasks;
`NetworkWorker` delivers no result for the failed task (it only logs) but
likewise never propagates the exception and continues processing. -/
theorem c1_amended :
    ∀ (e : String) (rest : List CallOutcome),
      geminiWorkerProcess (.transportFailure e) = [geminiErrorResult e] ∧
      (geminiErrorResult e).is_danger = false ∧
      (geminiErrorResult e).confidence.toRat = 0 ∧
      0 < (geminiErrorResult e).reasoning.length ∧
      workerRun geminiWorkerProcess (.transportFailure e :: rest) =
        geminiErrorResult e :: workerRun geminiWorkerProcess rest ∧
      networkWorkerProcess (.transportFailure e) = [] ∧
      workerRun networkWorkerProcess (.transportFailure e :: rest) =
        workerRun networkWorkerProcess rest := by
  intro e rest
  refine ⟨rfl, rfl, ?_, ?_, rfl, rfl, rfl⟩
  · show DecNum.zero.toRat = 0
    norm_num [DecNum.zero, DecNum.toRat]
  · show 0 < (("API 调用出错: " : String) ++ e).length
    rw [String.length_append]
    have : 0 < ("API 调用出错: " : String).length := by decide
    omega

theorem submit_keeps_maxsize {α : Type} (q : PyQueue α) (t : α) :
    (submit_task q t).1.maxsize = q.maxsize := by
  unfold submit_task
  split <;> rfl

theorem submit_len_le {α : Type} (q : PyQueue α) (t : α)
    (hpos : 0 < q.maxsize) (h : q.items.length ≤ q.maxsize) :
    (submit_task q t).1.items.length ≤ q.maxsize := by
  unfold submit_task
  split
  · exact h
  · next hfull =>
    simp only [PyQueue.isFull, Bool.and_eq_true, decide_eq_true_eq,
      not_and, not_le] at hfull
    have hlt := hfull hpos
    simp only [List.length_append, List.length_cons, List.length_nil]
    omega

theorem submitMany_len_le {α : Type} :
    ∀ (ts : List α) (q : PyQueue α), 0 < q.maxsize → q.items.length ≤ q.maxsize →
      (submitMany q ts).items.length ≤ q.maxsize
  | [], q, _, h => h
  | t :: ts, q, hpos, h => by
    unfold submitMany
    have hm := submit_keeps_maxsize q t
    have hb : (submit_task q t).1.items.length ≤ (submit_task q t).1.maxsize := by
      rw [hm]; exact submit_len_le q t hpos h
    have := submitMany_len_le ts (submit_task q t).1 (by rw [hm]; exact hpos) hb
    rwa [hm] at this

/-- C2: `submit_task` never blocks — it is a total step on the queue state;
when the task queue is full the task is dropped and a warning flag is the
only observable effect (the queue is unchanged); otherwise the task is
appended; and any burst of submissions keeps at most `maxsize` tasks in a
bounded queue.  (`NetworkWorker.__init__` builds the queue with
`maxsize = 0`, i.e. unbounded, under which the drop branch never fires.) -/
theorem c2_submit_drop_on_full :
    ∀ (α : Type) (q : PyQueue α) (t : α),
      (q.isFull = true → submit_task q t = (q, true)) ∧
      (q.isFull = false →
        submit_task q t = ({ q with items := q.items ++ [t] }, false)) ∧
      (∀ ts : List α, 0 < q.maxsize → q.items.length ≤ q.maxsize →
        (submitMany q ts).items.length ≤ q.maxsize) := by
  intro α q t
  refine ⟨?_, ?_, ?_⟩
  · intro h; unfold submit_task; rw [if_pos h]
  · intro h; unfold submit_task; rw [if_neg (by simp [h])]
  · intro ts hpos h; exact submitMany_len_le ts q hpos h

/-- C2 witness: a full queue of capacity 2 drops the submission unchanged,
and three submissions to a capacity-2 queue keep at most 2 tasks. -/
theorem c2_witness :
    submit_task (PyQueue.mk 2 [0, 1]) 7 = (PyQueue.mk 2 [0, 1], true) ∧
    (submitMany (PyQueue.mk 2 [0]) [5, 6, 7]).items.length ≤ 2 := by
  refine ⟨(c2_submit_drop_on_full Nat (PyQueue.mk 2 [0, 1]) 7).1 (by decide),
    ?_⟩
  exact (c2_submit_drop_on_full Nat (PyQueue.mk 2 [0]) 9).2.2 [5, 6, 7]
    (by decide) (by decide)

/-- C4: per iteration a frame is escalated iff a person is present and
`t - last_upload_time ≥ cooldown_seconds`; on escalation
`last_upload_time` is set to `t` in the same iteration; with a 5-second
cooldown, eligible frames 3 seconds apart yield one submitted task, and
6 seconds apart yield two. -/
theorem c4_upload_gating :
    (∀ (cooldown lastUpload t : ℚ) (hasPerson : Bool),
      ((uploadStep cooldown lastUpload t hasPerson).1 = true ↔
        hasPerson = true ∧ cooldown ≤ t - lastUpload) ∧
      (uploadStep cooldown lastUpload t hasPerson).2 =
        (if (uploadStep cooldown lastUpload t hasPerson).1 then t else lastUpload)) ∧
    uploadRun 5 0 [(10, true), (13, true)] = 1 ∧
    uploadRun 5 0 [(10, true), (16, true)] = 2 := by
  refine ⟨?_, ?_, ?_⟩
  · intro c l t p
    constructor
    · unfold uploadStep
      by_cases h : p && decide (c ≤ t - l)
      · simp only [if_pos h]
        simp only [Bool.and_eq_true, decide_eq_true_eq] at h
        simp [h]
      · simp only [if_neg h]
        simp only [Bool.and_eq_true, decide_eq_true_eq] at h
        simpa using h
    · unfold uploadStep
      by_cases h : p && decide (c ≤ t - l) <;> simp [h]
  · norm_num [uploadRun, uploadStep]
  · norm_num [uploadRun, uploadStep]

/-- C4 witness: the gate opens at a concrete eligible instant and the upload
time is updated to it. -/
theorem c4_witness :
    (uploadStep 5 0 10 true).1 = true ∧ (uploadStep 5 0 10 true).2 = 10 := by
  have h := (c4_upload_gating.1 5 0 10 true)
  refine ⟨h.1.mpr ⟨rfl, by norm_num⟩, ?_⟩
  rw [h.2, if_pos (h.1.mpr ⟨rfl, by norm_num⟩)]

theorem capturePush_len_le {α : Type} (q : List α) (f : α) (h : q.length ≤ 2) :
    (capturePush q f).length ≤ 2 := by
  simp only [capturePush]
  split <;> split <;>
    simp_all [List.length_drop, List.length_append] <;> omega

theorem capStep_len_le {α : Type} (q : List α) (op : CapOp α) (h : q.length ≤ 2) :
    (capStep q op).length ≤ 2 := by
  cases op with
  | push f => exact capturePush_len_le q f h
  | read =>
    cases q with
    | nil => simp [capStep, read_frame]
    | cons a r =>
      simp only [capStep, read_frame, List.length_cons] at h ⊢
      omega

theorem capFoldl_len_le {α : Type} (ops : List (CapOp α)) :
    ∀ q : List α, q.length ≤ 2 → (ops.foldl capStep q).length ≤ 2 := by
  induction ops with
  | nil => intro q h; exact h
  | cons op ops ih => intro q h; exact ih _ (capStep_len_le q op h)

theorem capturePush_full {α : Type} (q : List α) (f : α) (h : q.length = 2) :
    capturePush q f = q.drop 1 ++ [f] := by
  simp [capturePush, List.length_drop, h]

theorem foldl_capturePush {α : Type} (fs : List α) :
    List.foldl capturePush [] fs = fs.drop (fs.length - 2) := by
  induction fs using List.reverseRecOn with
  | nil => rfl
  | append_singleton fs f ih =>
    rw [List.foldl_append, List.foldl_cons, List.foldl_nil, ih]
    by_cases h0 : fs.length = 0
    · have : fs = [] := List.length_eq_zero.mp h0
      subst this; rfl
    · by_cases h1 : fs.length = 1
      · obtain ⟨a, rfl⟩ := List.length_eq_one.mp h1
        rfl
      · have h2 : 2 ≤ fs.length := by omega
        rw [capturePush_full _ f (by simp only [List.length_drop]; omega)]
        rw [List.drop_drop]
        have e1 : fs.length - 2 + 1 = fs.length - 1 := by omega
        have e2 : (fs ++ [f]).length - 2 = fs.length - 1 := by
          simp only [List.length_append, List.length_cons, List.length_nil]
          omega
        rw [e1, e2, List.drop_append_of_le_length (by omega)]

/-- C6: under any interleaving of producer pushes and consumer reads the
capture queue holds at most 2 frames; a push onto a full queue evicts the
oldest frame and admits the new one; a pure push stream leaves exactly
the most recent (up to) two frames, and draining yields them in FIFO
order. -/
theorem c6_capture_queue :
    ∀ (α : Type),
      (∀ ops : List (CapOp α), (capRun ops).length ≤ 2) ∧
      (∀ (q : List α) (f : α), q.length = 2 → capturePush q f = q.drop 1 ++ [f]) ∧
      (∀ fs : List α, capRun (fs.map CapOp.push) = fs.drop (fs.length - 2)) ∧
      (∀ q : List α, drainQueue q = q) := by
  intro α
  refine ⟨fun ops => capFoldl_len_le ops [] (by simp), capturePush_full, ?_, ?_⟩
  · intro fs
    unfold capRun
    rw [List.foldl_map]
    exact foldl_capturePush fs
  · intro q
    induction q with
    | nil => rfl
    | cons a r ih => simp [drainQueue, ih]

/-- C6 witness: concrete eviction on a full queue, a concrete interleaved
run respecting the bound, and the drained suffix of a 4-frame stream. -/
theorem c6_witness :
    capturePush [1, 2] 3 = [2, 3] ∧
    (capRun [CapOp.push 1, CapOp.push 2, CapOp.read,
             CapOp.push 3, CapOp.push 4, CapOp.push 5]).length ≤ 2 ∧
    capRun ([1, 2, 3, 4].map CapOp.push) = [3, 4] := by
  refine ⟨?_, (c6_capture_queue Nat).1 _, ?_⟩
  · have := (c6_capture_queue Nat).2.1 [1, 2] 3 (by decide)
    simp only [List.drop_succ_cons, List.drop_nil] at this
    exact this
  · have := (c6_capture_queue Nat).2.2.1 [1, 2, 3, 4]
    simpa using this

/-- C5: `_trigger_alert` inside the alert cooldown suppresses delivery but
still persists a cooldown-tagged evidence image; outside it, it updates
`last_alert_time`, increments the alert counter, persists an untagged
image and hands an `AlertRecord` to the notifier; with a 2-second
cooldown, danger results at `t0`, `t0+1`, `t0+3` are delivered,
suppressed-with-tagged-evidence, delivered. -/
theorem c5_alert_cooldown :
    (∀ (acd : ℚ) (si fp : Bool) (st : AlertState) (t : ℚ) (r : String),
      (t - st.lastAlertTime < acd →
        trigger_alert acd si fp st t r =
          (st, none, if si && fp then [⟨true⟩] else [])) ∧
      (acd ≤ t - st.lastAlertTime →
        trigger_alert acd si fp st t r =
          ({ lastAlertTime := t, alertCount := st.alertCount + 1 },
           some { rule_name := "危险动作检测",
                  description := "检测到危险情况: " ++ r,
                  severity := "高", location := "监控摄像头", alertTime := t },
           if si && fp then [⟨false⟩] else []))) ∧
    (∀ l t0 : ℚ, 2 ≤ t0 - l →
      alertRun 2 ⟨l, 0⟩ [t0, t0 + 1, t0 + 3] =
        [(true, [⟨false⟩]), (false, [⟨true⟩]), (true, [⟨false⟩])]) := by
  constructor
  · intro acd si fp st t r
    constructor
    · intro h; unfold trigger_alert; rw [if_pos h]
    · intro h; unfold trigger_alert; rw [if_neg (not_lt.mpr h)]
  · intro l t0 h
    simp only [alertRun, trigger_alert]
    split_ifs <;> first
      | rfl
      | (exfalso; linarith)
      | simp_all

/-- C5 witness: the three-alert scenario at concrete times, and a concrete
suppressed call. -/
theorem c5_witness :
    alertRun 2 ⟨0, 0⟩ [100, 100 + 1, 100 + 3] =
      [(true, [⟨false⟩]), (false, [⟨true⟩]), (true, [⟨false⟩])] ∧
    trigger_alert 2 true true ⟨0, 0⟩ 1 "r" = (⟨0, 0⟩, none, [⟨true⟩]) := by
  constructor
  · exact c5_alert_cooldown.2 0 100 (by norm_num)
  · exact (c5_alert_cooldown.1 2 true true ⟨0, 0⟩ 1 "r").1 (by norm_num)

/-- C9: for a danger result processed with image saving enabled (a frame is
always available at that point of the main loop), exactly two evidence
images are written: the untagged main-loop save before `_trigger_alert`,
then the trigger's own save — untagged when delivered, cooldown-tagged
when suppressed. -/
theorem c9_two_evidence_images :
    ∀ (acd : ℚ) (st : AlertState) (t : ℚ) (r : String),
      (dangerResultStep acd true st t r).2.2 =
        [⟨false⟩, if t - st.lastAlertTime < acd then ⟨true⟩ else ⟨false⟩] ∧
      (dangerResultStep acd true st t r).2.2.length = 2 ∧
      ((dangerResultStep acd true st t r).2.1.isSome = true →
        (dangerResultStep acd true st t r).2.2 = [⟨false⟩, ⟨false⟩]) ∧
      ((dangerResultStep acd true st t r).2.1.isSome = false →
        (dangerResultStep acd true st t r).2.2 = [⟨false⟩, ⟨true⟩]) ∧
      cooldownTag ⟨true⟩ = "_cooldown" ∧ cooldownTag ⟨false⟩ = "" := by
  intro acd st t r
  unfold dangerResultStep trigger_alert
  split_ifs with h <;> simp_all [cooldownTag]

/-- C9 witness: both outcomes at concrete states: delivered (two untagged
saves) and suppressed (untagged then cooldown-tagged). -/
theorem c9_witness :
    (dangerResultStep 2 true ⟨0, 0⟩ 10 "r").2.2 = [⟨false⟩, ⟨false⟩] ∧
    (dangerResultStep 2 true ⟨10, 1⟩ 11 "r").2.2 = [⟨false⟩, ⟨true⟩] := by
  constructor
  · exact (c9_two_evidence_images 2 ⟨0, 0⟩ 10 "r").2.2.1
      (by norm_num [dangerResultStep, trigger_alert])
  · exact (c9_two_evidence_images 2 ⟨10, 1⟩ 11 "r").2.2.2.1
      (by norm_num [dangerResultStep, trigger_alert])

/-- C3 counterexample: for the input `\x7bdanger\x7d` the JSON delimiters are
present but `json.loads` fails; the code then skips the keyword fallback
entirely, leaving `is_danger = false` although the danger keyword occurs
in the lowercased raw text, while `reasoning` is set to the raw text. -/
theorem c3_counterexample :
    (parse_response "\x7bdanger\x7d").is_danger = false ∧
    containsSub "danger".data (pyLower "\x7bdanger\x7d".data) = true ∧
    (parse_response "\x7bdanger\x7d").reasoning = "\x7bdanger\x7d" ∧
    parseBody "\x7bdanger\x7d" (initResult "\x7bdanger\x7d") =
      .error (initResult "\x7bdanger\x7d") := by
  exact ⟨by decide, by decide, by decide, rfl⟩

/-- C3 (amended): when the JSON delimiters are absent the keyword fallback
sets `is_danger` (true iff a danger term occurs) and `reasoning` is the
raw text; when the delimiters are present but structured parsing fails,
only `reasoning` is set to the raw text — the keyword scan is not applied
and `is_danger` keeps its default `false`. -/
theorem c3_amended :
    ∀ s : String,
      ((List.findIdx? (fun c => c == '{') (cleanResponse s.data) = none ∨
        rfindIdx '}' (cleanResponse s.data) = none) →
        (parse_response s).is_danger = kwScan s ∧ (parse_response s).reasoning = s) ∧
      (∀ i j : Nat, List.findIdx? (fun c => c == '{') (cleanResponse s.data) = some i →
        rfindIdx '}' (cleanResponse s.data) = some j →
        json_loads (pySlice (cleanResponse s.data) i (j + 1)) = none →
        parse_response s = { initResult s with reasoning := s }) := by
  intro s
  constructor
  · intro h
    have hbody : parseBody s (initResult s) =
        .ok { initResult s with
              reasoning := s,
              is_danger := if kwScan s then true else (initResult s).is_danger } := by
      unfold parseBody
      rcases h with h | h
      · rw [h]
      · cases hf : List.findIdx? (fun c => c == '{') (cleanResponse s.data) with
        | none => rfl
        | some i => rw [h]
    have hres : parse_response s =
        { initResult s with
          reasoning := s,
          is_danger := if kwScan s then true else (initResult s).is_danger } := by
      unfold parse_response
      rw [hbody]
    rw [hres]
    constructor
    · show (if kwScan s then true else (initResult s).is_danger) = kwScan s
      cases hk : kwScan s <;> simp [initResult]
    · rfl
  · intro i j hi hj hnone
    have hbody : parseBody s (initResult s) = .error (initResult s) := by
      unfold parseBody
      simp only [hi, hj]
      rw [hnone]
      rfl
    unfold parse_response
    rw [hbody]

/-- C3 witness: the spec's example without delimiters takes the keyword
fallback (`is_danger = true`, `reasoning` = raw), and a concrete
delimiter-present parse failure yields the default result with
`reasoning` = raw. -/
theorem c3_witness :
    (parse_response "no json here but DANGER detected").is_danger = true ∧
    (parse_response "no json here but DANGER detected").reasoning =
      "no json here but DANGER detected" ∧
    parse_response "\x7b oops \x7d" =
      { initResult "\x7b oops \x7d" with reasoning := "\x7b oops \x7d" } := by
  have h1 := (c3_amended "no json here but DANGER detected").1 (Or.inl (by decide))
  have h2 := (c3_amended "\x7b oops \x7d").2 0 7 (by decide) (by decide) rfl
  refine ⟨?_, h1.2, h2⟩
  rw [h1.1]
  decide

/-- C7: normalization clamps `confidence` into [0,1] on every input and
applies safe defaults for missing fields (`is_danger = false`, strings
empty, `confidence = 0.5`); the spec's example with `confidence: 1.5`
yields `confidence = 1.0` and `is_danger = true`. -/
theorem c7_normalization_clamps :
    (∀ s : String, 0 ≤ (parse_response s).confidence.toRat ∧
      (parse_response s).confidence.toRat ≤ 1) ∧
    (parse_response "\x7b\"is_danger\":true,\"confidence\":1.5,\"reasoning\":\"x\"\x7d").confidence.toRat = 1 ∧
    (parse_response "\x7b\"is_danger\":true,\"confidence\":1.5,\"reasoning\":\"x\"\x7d").is_danger = true ∧
    parse_response "\x7b\x7d" =
      { raw_response := "\x7b\x7d", is_danger := false, alert_type := "",
        alert_message := "", reasoning := "", confidence := DecNum.half } ∧
    DecNum.half.toRat = 1/2 := by
  refine ⟨?_, ?_, by decide, by decide, by norm_num [DecNum.half, DecNum.toRat]⟩
  · intro s
    rw [parse_response_conf]
    rcases exVal_parseBody_conf s (initResult s) with h | ⟨c, h⟩
    · rw [h]
      norm_num [initResult, DecNum.half, DecNum.toRat]
    · rw [h]
      exact clampD_bounds c
  · have he : (parse_response "\x7b\"is_danger\":true,\"confidence\":1.5,\"reasoning\":\"x\"\x7d").confidence = DecNum.one := by decide
    rw [he]
    norm_num [DecNum.one, DecNum.toRat]

/-- C8 counterexample: on an internal error (`float(null)` raising) the
result is not the safe default — the already-extracted `is_danger = true`
is kept — and `reasoning` is the raw response text, not the error. -/
theorem c8_counterexample :
    (parse_response "\x7b\"is_danger\": true, \"confidence\": null\x7d").is_danger = true ∧
    (parse_response "\x7b\"is_danger\": true, \"confidence\": null\x7d").reasoning =
      "\x7b\"is_danger\": true, \"confidence\": null\x7d" ∧
    parseBody "\x7b\"is_danger\": true, \"confidence\": null\x7d"
        (initResult "\x7b\"is_danger\": true, \"confidence\": null\x7d") =
      .error { raw_response := "\x7b\"is_danger\": true, \"confidence\": null\x7d",
               is_danger := true, alert_type := "", alert_message := "",
               reasoning := "", confidence := DecNum.half } := by
  exact ⟨by decide, by decide, rfl⟩

/-- C8 (amended): `_parse_response` is total — every outcome of the `try`
block is handled, an `ok` result is returned as-is and every raised
exception is caught, returning the partially updated dictionary with
`reasoning` overwritten by the raw response text. -/
theorem c8_amended :
    ∀ s : String,
      (∀ r, parseBody s (initResult s) = .ok r → parse_response s = r) ∧
      (∀ r, parseBody s (initResult s) = .error r →
        parse_response s = { r with reasoning := s }) := by
  intro s
  constructor <;> intro r h <;> unfold parse_response <;> rw [h]

/-- C8 witness: a concrete input whose `try` block raises at the
`float(...)` call is degraded to a returned result with the raw text as
`reasoning`. -/
theorem c8_witness :
    parse_response "\x7b\"is_danger\": true, \"confidence\": null\x7d" =
      { raw_response := "\x7b\"is_danger\": true, \"confidence\": null\x7d",
        is_danger := true, alert_type := "", alert_message := "",
        reasoning := "\x7b\"is_danger\": true, \"confidence\": null\x7d",
        confidence := DecNum.half } := by
  exact (c8_amended "\x7b\"is_danger\": true, \"confidence\": null\x7d").2
    { raw_response := "\x7b\"is_danger\": true, \"confidence\": null\x7d",
      is_danger := true, alert_type := "", alert_message := "",
      reasoning := "", confidence := DecNum.half } rfl

/-- C10: if the extracted substring decodes to a dict but the
`confidence` field cannot be converted to a float, the returned result
keeps the `is_danger`, `alert_type` and `alert_message` values already
extracted from the JSON, leaves `confidence` at the default 0.5, and
overwrites `reasoning` with the full raw response text. -/
theorem c10_partial_extraction :
    ∀ (s : String) (i j : Nat) (kvs : List (List Char × Json)),
      List.findIdx? (fun c => c == '{') (cleanResponse s.data) = some i →
      rfindIdx '}' (cleanResponse s.data) = some j →
      json_loads (pySlice (cleanResponse s.data) i (j + 1)) = some (.jobj kvs) →
      pyFloat (objGetD kvs "confidence".data (.jnum DecNum.half)) = .error () →
      parse_response s =
        { raw_response := s,
          is_danger := pyTruthy (objGetD kvs "is_danger".data (.jbool false)),
          alert_type := String.mk (pyStr (objGetD kvs "alert_type".data (.jstr []))),
          alert_message := String.mk (pyStr (objGetD kvs "alert_message".data (.jstr []))),
          reasoning := s,
          confidence := DecNum.half } := by
  intro s i j kvs hi hj hv hf
  have hbody : parseBody s (initResult s) = .error
      { raw_response := s,
        is_danger := pyTruthy (objGetD kvs "is_danger".data (.jbool false)),
        alert_type := String.mk (pyStr (objGetD kvs "alert_type".data (.jstr []))),
        alert_message := String.mk (pyStr (objGetD kvs "alert_message".data (.jstr []))),
        reasoning := String.mk (pyStr (objGetD kvs "reasoning".data (.jstr []))),
        confidence := DecNum.half } := by
    have hpbi : parseBodyInner (initResult s) (some (.jobj kvs)) =
        extractObj (initResult s) kvs := rfl
    unfold parseBody
    simp only [hi, hj]
    rw [hv, hpbi]
    unfold extractObj
    rw [hf]
    rfl
  unfold parse_response
  rw [hbody]

/-- C10 witness: a concrete response whose `confidence` is `null` keeps
the extracted fields, the 0.5 default confidence, and the raw text as
`reasoning`. -/
theorem c10_witness :
    parse_response "\x7b\"is_danger\": true, \"alert_type\": \"t\", \"alert_message\": \"m\", \"reasoning\": \"r\", \"confidence\": null\x7d" =
      { raw_response := "\x7b\"is_danger\": true, \"alert_type\": \"t\", \"alert_message\": \"m\", \"reasoning\": \"r\", \"confidence\": null\x7d",
        is_danger := true, alert_type := "t", alert_message := "m",
        reasoning := "\x7b\"is_danger\": true, \"alert_type\": \"t\", \"alert_message\": \"m\", \"reasoning\": \"r\", \"confidence\": null\x7d",
        confidence := DecNum.half } := by
  exact c10_partial_extraction
    "\x7b\"is_danger\": true, \"alert_type\": \"t\", \"alert_message\": \"m\", \"reasoning\": \"r\", \"confidence\": null\x7d"
    0 97
    [("is_danger".data, .jbool true), ("alert_type".data, .jstr "t".data),
     ("alert_message".data, .jstr "m".data), ("reasoning".data, .jstr "r".data),
     ("confidence".data, .jnull)]
    (by decide) (by decide) rfl rfl

end VideoMonitor
